import Mathlib

/-!
Verification of the redaction engine of the pdf-redaction-app repository.

The engine lives in the server sources: `removeTextContentInArea`,
`isTextPositionInRedactedArea`, `multiplyMatrices`,
`processAndModifyContentStream` and `applyEnhancedTextRedaction` (the
"enhanced" variant) and `removeTextInArea` / `isPositionInRedactedArea`
(the earlier variant).  JavaScript strings are modelled as `List Char`
(latin1 decoding of the stream bytes is a bijection between bytes and
code points 0..255).  JavaScript numbers are modelled as `Option ℚ`:
`some q` is a finite value, `none` is NaN; additions and multiplications
propagate NaN and every comparison with NaN is false, exactly as in JS.
The numeric-operand regexes of the source
(`/([-\d.]+)\s+...\s+cm/` etc.) are alternations of character-class
one-or-more groups, whitespace gaps and trailing literals, where each
character class is disjoint from the class that follows it; for such
patterns JavaScript's greedy leftmost matching coincides with maximal
munch at the first position where maximal munch succeeds, which is what
`searchPat` below implements.
-/

namespace PdfRedact

/-- A JavaScript number: `some q` is a finite value, `none` stands for NaN.
(The source only produces NaN through `parseFloat` on degenerate operand
text such as a bare minus sign; infinities are unreachable in the code
paths modelled here.) -/
def JSNum := Option ℚ
deriving DecidableEq, Repr

/-- Finite literal. -/
def jnum (q : ℚ) : JSNum := some q

/-- Rational addition written through `mkRat` (kernel-reducible, unlike
the `@[irreducible]` instance addition); `qadd_eq` identifies it with
`+`. -/
def qadd (a b : ℚ) : ℚ := mkRat (a.num * b.den + b.num * a.den) (a.den * b.den)

/-- Rational subtraction through `mkRat`; `qsub_eq` identifies it with
`-`. -/
def qsub (a b : ℚ) : ℚ := mkRat (a.num * b.den - b.num * a.den) (a.den * b.den)

/-- Rational multiplication through `mkRat`; `qmul_eq` identifies it
with `*`. -/
def qmul (a b : ℚ) : ℚ := mkRat (a.num * b.num) (a.den * b.den)

/-- Rational negation through `mkRat`; `qneg_eq` identifies it with
unary minus. -/
def qneg (a : ℚ) : ℚ := mkRat (-a.num) a.den

lemma qadd_eq (a b : ℚ) : qadd a b = a + b := (Rat.add_def' a b).symm

lemma qsub_eq (a b : ℚ) : qsub a b = a - b := (Rat.sub_def' a b).symm

lemma qmul_eq (a b : ℚ) : qmul a b = a * b := by
  rw [qmul, Rat.mul_def, Rat.normalize_eq_mkRat]

lemma qneg_eq (a : ℚ) : qneg a = -a := by
  rw [qneg, ← Rat.neg_mkRat, Rat.mkRat_self]

/-- JS addition: NaN propagates. -/
def jadd : JSNum → JSNum → JSNum
  | some a, some b => some (qadd a b)
  | _, _ => none

/-- JS subtraction: NaN propagates. -/
def jsub : JSNum → JSNum → JSNum
  | some a, some b => some (qsub a b)
  | _, _ => none

/-- JS multiplication: NaN propagates. -/
def jmul : JSNum → JSNum → JSNum
  | some a, some b => some (qmul a b)
  | _, _ => none

@[simp] lemma jadd_some (a b : ℚ) : jadd (some a) (some b) = some (a + b) := by
  simp [jadd, qadd_eq]

@[simp] lemma jsub_some (a b : ℚ) : jsub (some a) (some b) = some (a - b) := by
  simp [jsub, qsub_eq]

@[simp] lemma jmul_some (a b : ℚ) : jmul (some a) (some b) = some (a * b) := by
  simp [jmul, qmul_eq]

/-- JS `<=` as a boolean: any comparison with NaN is false. -/
def jle : JSNum → JSNum → Bool
  | some a, some b => decide (a ≤ b)
  | _, _ => false

/-- JS `>=` as a boolean: any comparison with NaN is false. -/
def jge (a b : JSNum) : Bool := jle b a

/-- JS `Math.max`: NaN if either argument is NaN. -/
def jmax : JSNum → JSNum → JSNum
  | some a, some b => some (max a b)
  | _, _ => none

/-- The character-set predicate of JS `String.prototype.trim`
(whitespace and line terminators). -/
def jsWhitespace (c : Char) : Bool :=
  c.toNat = 9 || c.toNat = 10 || c.toNat = 11 || c.toNat = 12 || c.toNat = 13 ||
  c.toNat = 32 || c.toNat = 160 || c.toNat = 0x2028 || c.toNat = 0x2029 ||
  c.toNat = 0xFEFF

/-- JS `trim`: drop whitespace from both ends. -/
def jsTrim (s : List Char) : List Char :=
  ((s.dropWhile jsWhitespace).reverse.dropWhile jsWhitespace).reverse

/-- Does `hay` start with `needle`?  (Char-by-char, as JS string compare.) -/
def startsWithList : List Char → List Char → Bool
  | [], _ => true
  | _ :: _, [] => false
  | a :: as, b :: bs => a = b && startsWithList as bs

/-- JS `String.prototype.includes`: does `needle` occur as a contiguous
run anywhere in `hay`? -/
def includesList (needle : List Char) : List Char → Bool
  | [] => startsWithList needle []
  | c :: rest => startsWithList needle (c :: rest) || includesList needle rest

/-- Digit character test (`\d`). -/
def isDigitChar (c : Char) : Bool := 48 ≤ c.toNat && c.toNat ≤ 57

/-- The character class `[-\d.]` of the operand regexes. -/
def numClass (c : Char) : Bool := c = '-' || c = '.' || isDigitChar c

/-- The character class `[\d.]` of the font-size regex. -/
def posNumClass (c : Char) : Bool := c = '.' || isDigitChar c

/-- The character class `\s` of the operand regexes. -/
def wsClass (c : Char) : Bool :=
  jsWhitespace c || c.toNat = 0x2000 || c.toNat = 0x3000

/-- The character class `\w` (of `/\/\w+\s+([\d.]+)\s+Tf/`). -/
def wordClass (c : Char) : Bool :=
  isDigitChar c || (65 ≤ c.toNat && c.toNat ≤ 90) ||
  (97 ≤ c.toNat && c.toNat ≤ 122) || c = '_'

/-- One item of an operand regex: a captured one-or-more character-class
run, an uncaptured one-or-more run, a single uncaptured class character,
or a literal. -/
inductive PatItem where
  | grp (cls : Char → Bool)
  | gap (cls : Char → Bool)
  | one (cls : Char → Bool)
  | lit (cs : List Char)

/-- Match a pattern at the start of `s` by maximal munch, returning the
captured groups.  For the regexes of the source every character class is
disjoint from whatever must match right after it, so JS greedy
backtracking never gives characters back and maximal munch computes the
same match. -/
def matchAt : List PatItem → List Char → Option (List (List Char))
  | [], _ => some []
  | PatItem.lit cs :: rest, s =>
      if startsWithList cs s then matchAt rest (s.drop cs.length) else none
  | PatItem.one cls :: rest, s =>
      match s with
      | [] => none
      | c :: t => if cls c then matchAt rest t else none
  | PatItem.gap cls :: rest, s =>
      let tk := s.takeWhile cls
      if tk.isEmpty then none else matchAt rest (s.dropWhile cls)
  | PatItem.grp cls :: rest, s =>
      let tk := s.takeWhile cls
      if tk.isEmpty then none
      else (matchAt rest (s.dropWhile cls)).map (fun gs => tk :: gs)

/-- Unanchored regex search: the match at the leftmost position where
`matchAt` succeeds, as JS `String.prototype.match`. -/
def searchPat (pat : List PatItem) : List Char → Option (List (List Char))
  | [] => matchAt pat []
  | c :: rest =>
      match matchAt pat (c :: rest) with
      | some gs => some gs
      | none => searchPat pat rest

/-- Decimal digits to their natural-number value. -/
def digitsToNat (ds : List Char) : ℕ :=
  ds.foldl (fun acc c => acc * 10 + (c.toNat - 48)) 0

/-- JS `parseFloat` restricted to the captured-group alphabet
(`-`, `.`, digits): optional sign, then the longest decimal-literal
prefix `ip.fp`, whose exact value is `±(ip * 10^|fp| + fp) / 10^|fp|`;
NaN (`none`) when no digit is consumed. -/
def parseFloat (s : List Char) : JSNum :=
  let core := fun (t : List Char) =>
    let intPart := t.takeWhile isDigitChar
    let t1 := t.dropWhile isDigitChar
    let fracPart :=
      match t1 with
      | '.' :: t2 => t2.takeWhile isDigitChar
      | _ => []
    if intPart.isEmpty && fracPart.isEmpty then none
    else
      some (mkRat (digitsToNat intPart * 10 ^ fracPart.length + digitsToNat fracPart : ℕ)
        (10 ^ fracPart.length))
  match s with
  | '-' :: t => (core t).map qneg
  | t => core t

/-- A 2×3 affine transformation matrix `[a, b, c, d, e, f]`, the
`currentMatrix` array of the source (indices 0..5 named a..f as in the
spec). -/
structure Mat where
  a : JSNum
  b : JSNum
  c : JSNum
  d : JSNum
  e : JSNum
  f : JSNum
deriving DecidableEq, Repr

/-- The identity matrix `[1, 0, 0, 1, 0, 0]`. -/
def idMat : Mat := ⟨jnum 1, jnum 0, jnum 0, jnum 1, jnum 0, jnum 0⟩

/-- `multiplyMatrices(a, b)` of the source:
`[a0*b0 + a2*b1, a1*b0 + a3*b1, a0*b2 + a2*b3, a1*b2 + a3*b3,
  a0*b4 + a2*b5 + a4, a1*b4 + a3*b5 + a5]`. -/
def multiplyMatrices (m n : Mat) : Mat :=
  ⟨jadd (jmul m.a n.a) (jmul m.c n.b),
   jadd (jmul m.b n.a) (jmul m.d n.b),
   jadd (jmul m.a n.c) (jmul m.c n.d),
   jadd (jmul m.b n.c) (jmul m.d n.d),
   jadd (jadd (jmul m.a n.e) (jmul m.c n.f)) m.e,
   jadd (jadd (jmul m.b n.e) (jmul m.d n.f)) m.f⟩

/-- The needle `"BT"` of `line.includes('BT')`. -/
def btStr : List Char := "BT".data

/-- The needle `"ET"` of `line.includes('ET')`. -/
def etStr : List Char := "ET".data

/-- The needle `" cm"`. -/
def cmStr : List Char := " cm".data

/-- The needle `" Tf"`. -/
def tfStr : List Char := " Tf".data

/-- The needle `" Tm"`. -/
def tmStr : List Char := " Tm".data

/-- The needle `" Td"`. -/
def tdStr : List Char := " Td".data

/-- The needle `" TD"`. -/
def tdUStr : List Char := " TD".data

/-- The needle `" TL"`. -/
def tlStr : List Char := " TL".data

/-- The needle `" Tj"`. -/
def tjStr : List Char := " Tj".data

/-- The needle `" TJ"`. -/
def tjUStr : List Char := " TJ".data

/-- The needle `"'"` (a single apostrophe). -/
def quoteStr : List Char := [Char.ofNat 39]

/-- The needle `'"'` (a single double quote). -/
def dquoteStr : List Char := [Char.ofNat 34]

/-- Six `[-\d.]+` groups separated by `\s+`, then `\s+` and a trailing
literal: the shape of the `cm` and `Tm` regexes. -/
def sixNumPat (trail : List Char) : List PatItem :=
  [PatItem.grp numClass, PatItem.gap wsClass, PatItem.grp numClass,
   PatItem.gap wsClass, PatItem.grp numClass, PatItem.gap wsClass,
   PatItem.grp numClass, PatItem.gap wsClass, PatItem.grp numClass,
   PatItem.gap wsClass, PatItem.grp numClass, PatItem.gap wsClass,
   PatItem.lit trail]

/-- `line.match(/([-\d.]+)\s+...\s+cm/)` with the groups fed through
`parseFloat`, as in the `cm` branch of `removeTextContentInArea`. -/
def cmMatch (line : List Char) : Option Mat :=
  match searchPat (sixNumPat "cm".data) line with
  | some [g1, g2, g3, g4, g5, g6] =>
      some ⟨parseFloat g1, parseFloat g2, parseFloat g3,
            parseFloat g4, parseFloat g5, parseFloat g6⟩
  | _ => none

/-- `line.match(/([-\d.]+)\s+...\s+Tm/)` with the groups fed through
`parseFloat`. -/
def tmMatch (line : List Char) : Option Mat :=
  match searchPat (sixNumPat "Tm".data) line with
  | some [g1, g2, g3, g4, g5, g6] =>
      some ⟨parseFloat g1, parseFloat g2, parseFloat g3,
            parseFloat g4, parseFloat g5, parseFloat g6⟩
  | _ => none

/-- `line.match(/([-\d.]+)\s+([-\d.]+)\s+T[dD]/)` with the two groups fed
through `parseFloat`. -/
def tdMatch (line : List Char) : Option (JSNum × JSNum) :=
  match searchPat
      [PatItem.grp numClass, PatItem.gap wsClass, PatItem.grp numClass,
       PatItem.gap wsClass, PatItem.lit "T".data,
       PatItem.one (fun c => c = 'd' || c = 'D')] line with
  | some [g1, g2] => some (parseFloat g1, parseFloat g2)
  | _ => none

/-- `line.match(/([-\d.]+)\s+TL/)` with the group fed through
`parseFloat`. -/
def tlMatch (line : List Char) : Option JSNum :=
  match searchPat
      [PatItem.grp numClass, PatItem.gap wsClass, PatItem.lit "TL".data]
      line with
  | some [g1] => some (parseFloat g1)
  | _ => none

/-- `line.match(/\/\w+\s+([\d.]+)\s+Tf/)` with the group fed through
`parseFloat`. -/
def tfMatch (line : List Char) : Option JSNum :=
  match searchPat
      [PatItem.lit "/".data, PatItem.gap wordClass, PatItem.gap wsClass,
       PatItem.grp posNumClass, PatItem.gap wsClass, PatItem.lit "Tf".data]
      line with
  | some [g1] => some (parseFloat g1)
  | _ => none

/-- `isTextPositionInRedactedArea(textX, textY, fontSize, redactX,
redactY, redactWidth, redactHeight)` of the enhanced variant:
`padding = Math.max(fontSize * 0.5, 5)`, `textHeight = fontSize * 1.2`,
then the four inequalities of the source. -/
def isTextPositionInRedactedArea
    (textX textY fontSize redactX redactY redactWidth redactHeight : JSNum) :
    Bool :=
  let padding := jmax (jmul fontSize (jnum (mkRat 1 2))) (jnum 5)
  let textHeight := jmul fontSize (jnum (mkRat 6 5))
  jge textX (jsub redactX padding) &&
  jle textX (jadd (jadd redactX redactWidth) padding) &&
  jge textY (jsub redactY padding) &&
  jle textY (jadd (jadd (jadd redactY redactHeight) textHeight) padding)

/-- `isPositionInRedactedArea(textX, textY, redactX, redactY,
redactWidth, redactHeight)` of the earlier variant: fixed `padding = 5`,
no font-size band. -/
def isPositionInRedactedArea
    (textX textY redactX redactY redactWidth redactHeight : JSNum) : Bool :=
  let padding := jnum 5
  jge textX (jsub redactX padding) &&
  jle textX (jadd (jadd redactX redactWidth) padding) &&
  jge textY (jsub redactY padding) &&
  jle textY (jadd (jadd redactY redactHeight) padding)

/-- The marker line pushed by `removeTextContentInArea` when a text
object is dropped. -/
def marker1 : List Char :=
  "% TEXT OBJECT REMOVED BY REDACTION - Your Name PDF Tool".data

/-- The marker line pushed by `removeTextInArea` when a text object is
dropped. -/
def marker2 : List Char := "% TEXT OBJECT REMOVED BY REDACTION".data

/-- The loop state of `removeTextContentInArea` (enhanced variant):
`currentMatrix`, `textMode`, `textObjectLines`, `skipCurrentTextObject`,
`removedCount`, `currentFontSize` and the output accumulator
`modifiedLines`. -/
structure RState1 where
  currentMatrix : Mat
  textMode : Bool
  textObjectLines : List (List Char)
  skipCurrentTextObject : Bool
  removedCount : Nat
  currentFontSize : JSNum
  modifiedLines : List (List Char)
deriving DecidableEq, Repr

/-- Initial loop state of `removeTextContentInArea`:
`[1,0,0,1,0,0]`, not in text mode, empty buffers, count 0, font size 12. -/
def initState1 : RState1 := ⟨idMat, false, [], false, 0, jnum 12, []⟩

/-- One iteration of the `for` loop of `removeTextContentInArea`
(enhanced variant), transcribed branch for branch from the source:
the `!textMode` early-exit (with its `cm` handling) comes first, then
the `BT` / `ET` else-chain, then the `if (textMode)` body with the `Tf`
check followed by the `Tm` / `Td`,`TD` / `TL` / show else-chain. -/
def step1 (x y w h : ℚ) (st : RState1) (rawLine : List Char) : RState1 :=
  let line := jsTrim rawLine
  if st.textMode = false then
    let st1 :=
      if includesList cmStr line then
        match cmMatch line with
        | some n => { st with currentMatrix := multiplyMatrices st.currentMatrix n }
        | none => st
      else st
    { st1 with modifiedLines := st1.modifiedLines ++ [line] }
  else if includesList btStr line then
    { st with textMode := true, textObjectLines := [line],
              skipCurrentTextObject := false }
  else if includesList etStr line then
    if st.skipCurrentTextObject = false then
      { st with textMode := false,
                modifiedLines := st.modifiedLines ++ st.textObjectLines ++ [line],
                textObjectLines := [], skipCurrentTextObject := false }
    else
      { st with textMode := false, removedCount := st.removedCount + 1,
                modifiedLines := st.modifiedLines ++ [marker1],
                textObjectLines := [], skipCurrentTextObject := false }
  else if st.textMode = true then
    let st1 := { st with textObjectLines := st.textObjectLines ++ [line] }
    let st2 :=
      if includesList tfStr line then
        match tfMatch line with
        | some v => { st1 with currentFontSize := v }
        | none => st1
      else st1
    if includesList tmStr line then
      match tmMatch line with
      | some n =>
          let st3 := { st2 with currentMatrix := n }
          if isTextPositionInRedactedArea n.e n.f st3.currentFontSize
              (jnum x) (jnum y) (jnum w) (jnum h) then
            { st3 with skipCurrentTextObject := true }
          else st3
      | none => st2
    else if includesList tdStr line || includesList tdUStr line then
      match tdMatch line with
      | some (dx, dy) =>
          let m := { st2.currentMatrix with
                       e := jadd st2.currentMatrix.e dx,
                       f := jadd st2.currentMatrix.f dy }
          let st3 := { st2 with currentMatrix := m }
          if isTextPositionInRedactedArea m.e m.f st3.currentFontSize
              (jnum x) (jnum y) (jnum w) (jnum h) then
            { st3 with skipCurrentTextObject := true }
          else st3
      | none => st2
    else if includesList tlStr line then
      match tlMatch line with
      | some leading =>
          let m := { st2.currentMatrix with
                       f := jsub st2.currentMatrix.f leading }
          let st3 := { st2 with currentMatrix := m }
          if isTextPositionInRedactedArea m.e m.f st3.currentFontSize
              (jnum x) (jnum y) (jnum w) (jnum h) then
            { st3 with skipCurrentTextObject := true }
          else st3
      | none => st2
    else if includesList tjStr line || includesList tjUStr line ||
            includesList quoteStr line || includesList dquoteStr line then
      if isTextPositionInRedactedArea st2.currentMatrix.e st2.currentMatrix.f
          st2.currentFontSize (jnum x) (jnum y) (jnum w) (jnum h) then
        { st2 with skipCurrentTextObject := true }
      else st2
    else st2
  else st

/-- `removeTextContentInArea(contentString, x, y, width, height)` of the
enhanced variant: split on newlines, run the loop, join the emitted
lines with newlines, and return the pair
`{ modifiedContent, removedCount }`. -/
def removeTextContentInArea (contentString : List Char) (x y w h : ℚ) :
    List Char × Nat :=
  let lines := contentString.splitOn '\n'
  let fin := lines.foldl (step1 x y w h) initState1
  (List.intercalate ['\n'] fin.modifiedLines, fin.removedCount)

/-- The loop state of `removeTextInArea` (earlier variant): no removed
count and no font size are tracked. -/
structure RState2 where
  currentMatrix : Mat
  textMode : Bool
  pendingTextObject : List (List Char)
  skipCurrentTextObject : Bool
  modifiedLines : List (List Char)
deriving DecidableEq, Repr

/-- Initial loop state of `removeTextInArea`. -/
def initState2 : RState2 := ⟨idMat, false, [], false, []⟩

/-- One iteration of the `for` loop of `removeTextInArea` (earlier
variant): the `BT` / `ET` else-chain runs first (before any text-mode
test), then the `if (textMode)` body with the `Tm` / `Td`,`TD` / show
else-chain, and lines outside text mode are pushed through. -/
def step2 (x y w h : ℚ) (st : RState2) (rawLine : List Char) : RState2 :=
  let line := jsTrim rawLine
  if includesList btStr line then
    { st with textMode := true, pendingTextObject := [line],
              skipCurrentTextObject := false }
  else if includesList etStr line then
    if st.skipCurrentTextObject = false then
      { st with textMode := false,
                modifiedLines := st.modifiedLines ++ st.pendingTextObject ++ [line],
                pendingTextObject := [], skipCurrentTextObject := false }
    else
      { st with textMode := false,
                modifiedLines := st.modifiedLines ++ [marker2],
                pendingTextObject := [], skipCurrentTextObject := false }
  else if st.textMode = true then
    let st1 := { st with pendingTextObject := st.pendingTextObject ++ [line] }
    if includesList tmStr line then
      match tmMatch line with
      | some n =>
          let st2 := { st1 with currentMatrix := n }
          if isPositionInRedactedArea n.e n.f
              (jnum x) (jnum y) (jnum w) (jnum h) then
            { st2 with skipCurrentTextObject := true }
          else st2
      | none => st1
    else if includesList tdStr line || includesList tdUStr line then
      match tdMatch line with
      | some (dx, dy) =>
          let m := { st1.currentMatrix with
                       e := jadd st1.currentMatrix.e dx,
                       f := jadd st1.currentMatrix.f dy }
          let st2 := { st1 with currentMatrix := m }
          if isPositionInRedactedArea m.e m.f
              (jnum x) (jnum y) (jnum w) (jnum h) then
            { st2 with skipCurrentTextObject := true }
          else st2
      | none => st1
    else if includesList tjStr line || includesList tjUStr line ||
            includesList quoteStr line || includesList dquoteStr line then
      if isPositionInRedactedArea st1.currentMatrix.e st1.currentMatrix.f
          (jnum x) (jnum y) (jnum w) (jnum h) then
        { st1 with skipCurrentTextObject := true }
      else st1
    else st1
  else
    { st with modifiedLines := st.modifiedLines ++ [line] }

/-- `removeTextInArea(contentString, x, y, width, height)` of the
earlier variant: returns only the rewritten string. -/
def removeTextInArea (contentString : List Char) (x y w h : ℚ) : List Char :=
  let lines := contentString.splitOn '\n'
  let fin := lines.foldl (step2 x y w h) initState2
  List.intercalate ['\n'] fin.modifiedLines

/-- A PDF content-stream object: whether it carries a `Length` key, the
declared `Length` value, and the decoded (latin1) stream content.
Latin1 decoding is a bijection between bytes and code points, so the
byte content is modelled directly by its decoded characters. -/
structure StreamObj where
  hasLength : Bool
  lengthVal : Nat
  content : List Char
deriving DecidableEq, Repr

/-- `processAndModifyContentStream` of the enhanced variant: a stream
without a `Length` key is left alone with 0 removed; otherwise run
`removeTextContentInArea` and, only when the output string differs from
the input, store the new bytes, update `Length` to the new byte count
and return the removed count; byte-identical output makes no change and
returns 0. -/
def processAndModifyContentStream (s : StreamObj) (x y w h : ℚ) :
    StreamObj × Nat :=
  if s.hasLength = false then (s, 0)
  else
    let r := removeTextContentInArea s.content x y w h
    if r.1 ≠ s.content then
      ({ s with content := r.1, lengthVal := r.1.length }, r.2)
    else (s, 0)

/-- An opaque fill colour of `page.drawRectangle` (only white and black
occur in the redaction code). -/
inductive FillColor where
  | white
  | black
deriving DecidableEq, Repr

/-- One `page.drawRectangle` call: position, size, colour and opacity. -/
structure DrawOp where
  x : ℚ
  y : ℚ
  width : ℚ
  height : ℚ
  color : FillColor
  opacity : ℚ
deriving DecidableEq, Repr

/-- A page of the document model: its size, its content streams (the
`Contents` entry, already normalised to an array) and the ordered log of
rectangles drawn on it. -/
structure Page where
  width : ℚ
  height : ℚ
  streams : List StreamObj
  drawOps : List DrawOp
deriving DecidableEq, Repr

/-- The loaded document: a list of pages.  `getPage` with an index
outside `0 .. pages.length - 1` throws in the PDF library. -/
structure PDFDoc where
  pages : List Page
deriving DecidableEq, Repr

/-- A redaction request rectangle as received from the client. -/
structure Redaction where
  pageIndex : ℕ
  x : ℚ
  y : ℚ
  width : ℚ
  height : ℚ
  viewportWidth : ℚ
  viewportHeight : ℚ
deriving DecidableEq, Repr

/-- A PDF-space box (bottom-left origin). -/
structure PdfBox where
  x : ℚ
  y : ℚ
  width : ℚ
  height : ℚ
deriving DecidableEq, Repr

/-- The four coordinate-mapping assignments at the top of
`applyEnhancedTextRedaction` / `applyTrueTextRedaction`:
`pdfX = (redaction.x / redaction.viewportWidth) * width`,
`pdfY = height - ((redaction.y + redaction.height) / redaction.viewportHeight) * height`,
`pdfWidth = (redaction.width / redaction.viewportWidth) * width`,
`pdfHeight = (redaction.height / redaction.viewportHeight) * height`. -/
def mapRect (r : Redaction) (pageWidth pageHeight : ℚ) : PdfBox :=
  ⟨r.x / r.viewportWidth * pageWidth,
   pageHeight - (r.y + r.height) / r.viewportHeight * pageHeight,
   r.width / r.viewportWidth * pageWidth,
   r.height / r.viewportHeight * pageHeight⟩

/-- The Coordinate Mapper exactly as the specification words it:
`pdfX = (rectX / viewportWidth) * pageWidth`,
`pdfY = pageHeight - ((rectY + rectHeight) / viewportHeight) * pageHeight`,
`pdfWidth = (rectWidth / viewportWidth) * pageWidth`,
`pdfHeight = (rectHeight / viewportHeight) * pageHeight`.
Stated separately from `mapRect` so that the code can be compared
against the specification's formulas. -/
def specCoordinateMapper (r : Redaction) (pageWidth pageHeight : ℚ) : PdfBox :=
  ⟨(r.x / r.viewportWidth) * pageWidth,
   pageHeight - ((r.y + r.height) / r.viewportHeight) * pageHeight,
   (r.width / r.viewportWidth) * pageWidth,
   (r.height / r.viewportHeight) * pageHeight⟩

/-- `removeTextFromContentStreams`: run `processAndModifyContentStream`
over every content stream of the page in order, summing the removed
counts (its `try`/`catch` returns 0 only on exceptions, which the pure
model cannot raise). -/
def removeTextFromContentStreams (streams : List StreamObj) (x y w h : ℚ) :
    List StreamObj × Nat :=
  streams.foldl
    (fun acc s =>
      let p := processAndModifyContentStream s x y w h
      (acc.1 ++ [p.1], acc.2 + p.2))
    ([], 0)

/-- `applyEnhancedTextRedaction(pdfDoc, redaction)`:
`getPage` throws for an out-of-range page index, the `catch` block's
fallback calls `getPage` with the same index, which throws again, and
that error is rethrown (`Except.error`).  For a valid index the mapped
box is computed, the content streams are rewritten
(`removeTextFromContentStreams`; the XObject and annotation passes are
placeholders returning 0), and exactly two opaque rectangles are then
drawn: white first, then black, both at the mapped box with opacity 1.
Returns the document and the removed-object count. -/
def applyEnhancedTextRedaction (doc : PDFDoc) (r : Redaction) :
    Except Unit (PDFDoc × Nat) :=
  match doc.pages[r.pageIndex]? with
  | none => Except.error ()
  | some page =>
      let box := mapRect r page.width page.height
      let pr := removeTextFromContentStreams page.streams
                  box.x box.y box.width box.height
      let page1 : Page :=
        { page with
            streams := pr.1,
            drawOps := page.drawOps ++
              [⟨box.x, box.y, box.width, box.height, FillColor.white, 1⟩,
               ⟨box.x, box.y, box.width, box.height, FillColor.black, 1⟩] }
      Except.ok (⟨doc.pages.set r.pageIndex page1⟩, pr.2)

/-- The rectangle loop of the `/api/submit-redactions` handler: each
redaction is applied in order and the removed counts are summed; an
exception escaping `applyEnhancedTextRedaction` aborts the loop (the
handler's single `try` surrounds the whole loop). -/
def redactLoop (acc : PDFDoc × Nat) : List Redaction → Except Unit (PDFDoc × Nat)
  | [] => Except.ok acc
  | r :: rest =>
      match applyEnhancedTextRedaction acc.1 r with
      | Except.error e => Except.error e
      | Except.ok (d, n) => redactLoop (d, acc.2 + n) rest

/-- `/api/submit-redactions` orchestration over a loaded document:
process all redactions in order starting from count 0. -/
def submitRedactions (doc : PDFDoc) (rs : List Redaction) :
    Except Unit (PDFDoc × Nat) :=
  redactLoop (doc, 0) rs

/-! ## Helper lemmas -/

/-- With `textMode = false`, one `removeTextContentInArea` loop
iteration only (possibly) updates the matrix and pushes the trimmed line:
the `continue` fires before the `BT` check can run. -/
lemma step1_notTextMode (x y w h : ℚ) (st : RState1) (l : List Char)
    (hst : st.textMode = false) :
    ∃ m, step1 x y w h st l =
      { st with currentMatrix := m,
                modifiedLines := st.modifiedLines ++ [jsTrim l] } := by
  by_cases hcm : includesList cmStr (jsTrim l) = true
  · cases hm : cmMatch (jsTrim l) with
    | none =>
        exact ⟨st.currentMatrix, by simp [step1, hst, hcm, hm]⟩
    | some n =>
        exact ⟨multiplyMatrices st.currentMatrix n,
          by simp [step1, hst, hcm, hm]⟩
  · exact ⟨st.currentMatrix, by simp [step1, hst, hcm]⟩

/-- With `textMode = false` initially, the whole `removeTextContentInArea`
loop stays out of text mode and just emits every trimmed line. -/
lemma foldl_step1_notTextMode (x y w h : ℚ) :
    ∀ (lines : List (List Char)) (st : RState1), st.textMode = false →
    ∃ m, lines.foldl (step1 x y w h) st =
      { st with currentMatrix := m,
                modifiedLines := st.modifiedLines ++ lines.map jsTrim } := by
  intro lines
  induction lines with
  | nil =>
      intro st hst
      exact ⟨st.currentMatrix, by simp⟩
  | cons l rest ih =>
      intro st hst
      obtain ⟨m1, h1⟩ := step1_notTextMode x y w h st l hst
      obtain ⟨m2, h2⟩ := ih
        ({ st with
             currentMatrix := m1,
             modifiedLines := st.modifiedLines ++ [jsTrim l] }) hst
      refine ⟨m2, ?_⟩
      rw [List.foldl_cons, h1, h2]
      simp

/-- `removeTextContentInArea` computes a fixed function of the input
text alone: every line trimmed and re-joined, with removed count 0. -/
lemma removeTextContentInArea_eq (content : List Char) (x y w h : ℚ) :
    removeTextContentInArea content x y w h =
      (List.intercalate ['\n'] ((content.splitOn '\n').map jsTrim), 0) := by
  obtain ⟨m, hm⟩ :=
    foldl_step1_notTextMode x y w h (content.splitOn '\n') initState1 rfl
  simp only [removeTextContentInArea]
  rw [hm]
  simp [initState1]

/-- The final loop state of `removeTextContentInArea` never has
`textMode` set and never counts a removal. -/
lemma foldl_step1_final (content : List Char) (x y w h : ℚ) :
    ((content.splitOn '\n').foldl (step1 x y w h) initState1).textMode = false ∧
    ((content.splitOn '\n').foldl (step1 x y w h) initState1).removedCount = 0 ∧
    ((content.splitOn '\n').foldl (step1 x y w h) initState1).modifiedLines =
      (content.splitOn '\n').map jsTrim := by
  obtain ⟨m, hm⟩ :=
    foldl_step1_notTextMode x y w h (content.splitOn '\n') initState1 rfl
  rw [hm]
  exact ⟨rfl, rfl, by simp [initState1]⟩

/-- `processAndModifyContentStream` always reports 0 removed objects. -/
lemma processAndModify_count (s : StreamObj) (x y w h : ℚ) :
    (processAndModifyContentStream s x y w h).2 = 0 := by
  unfold processAndModifyContentStream
  by_cases hL : s.hasLength = false
  · simp [hL]
  · simp only [hL, if_false]
    rw [removeTextContentInArea_eq]
    by_cases hc :
        List.intercalate ['\n'] ((s.content.splitOn '\n').map jsTrim) ≠ s.content
    · simp [hc]
    · simp [hc]

/-- C2: in `removeTextContentInArea` the `!textMode` branch emits every
line and `continue`s before the `BT` check can run, so text mode is never
entered, the removed count is 0, every emitted line is just a trimmed
input line (in particular no removal marker is ever produced), and
`processAndModifyContentStream` contributes 0 for every stream. -/
theorem claim2_redactor_is_dead_code (content : List Char) (x y w h : ℚ)
    (s : StreamObj) :
    ((content.splitOn '\n').foldl (step1 x y w h) initState1).textMode = false ∧
    ((content.splitOn '\n').foldl (step1 x y w h) initState1).modifiedLines =
      (content.splitOn '\n').map jsTrim ∧
    removeTextContentInArea content x y w h =
      (List.intercalate ['\n'] ((content.splitOn '\n').map jsTrim), 0) ∧
    (processAndModifyContentStream s x y w h).2 = 0 := by
  obtain ⟨h1, _, h3⟩ := foldl_step1_final content x y w h
  exact ⟨h1, h3, removeTextContentInArea_eq content x y w h,
    processAndModify_count s x y w h⟩

lemma mkRat_one_two : (mkRat 1 2 : ℚ) = 1 / 2 := by
  norm_num [Rat.mkRat_eq_div]

lemma mkRat_six_five : (mkRat 6 5 : ℚ) = 6 / 5 := by
  norm_num [Rat.mkRat_eq_div]

/-- Characterisation of the enhanced containment test on finite
values. -/
lemma isTextPos_some_iff (ax ay f rx ry rw rh : ℚ) :
    isTextPositionInRedactedArea (jnum ax) (jnum ay) (jnum f)
      (jnum rx) (jnum ry) (jnum rw) (jnum rh) = true ↔
      (rx - max (f * (1 / 2)) 5 ≤ ax ∧
       ax ≤ rx + rw + max (f * (1 / 2)) 5 ∧
       ry - max (f * (1 / 2)) 5 ≤ ay ∧
       ay ≤ ry + rh + f * (6 / 5) + max (f * (1 / 2)) 5) := by
  simp [isTextPositionInRedactedArea, jge, jle, jmax, jnum,
    mkRat_one_two, mkRat_six_five, Bool.and_eq_true, decide_eq_true_iff,
    and_assoc]

/-- C4: the coordinate-mapping assignments of the code equal the
specification's Coordinate Mapper formulas, including the Y-flip. -/
theorem claim4_coordinate_mapper (r : Redaction) (pageWidth pageHeight : ℚ) :
    mapRect r pageWidth pageHeight = specCoordinateMapper r pageWidth pageHeight :=
  rfl

/-- C5: the containment test reports the anchor inside exactly when
`ax ∈ [rx - padding, rx + rw + padding]` and
`ay ∈ [ry - padding, ry + rh + textBand + padding]` with
`padding = max(fontSize * 0.5, 5)` and `textBand = fontSize * 1.2`. -/
theorem claim5_containment_formula (ax ay fontSize rx ry rw rh : ℚ) :
    isTextPositionInRedactedArea (jnum ax) (jnum ay) (jnum fontSize)
      (jnum rx) (jnum ry) (jnum rw) (jnum rh) = true ↔
      (rx - max (fontSize * (1 / 2)) 5 ≤ ax ∧
       ax ≤ rx + rw + max (fontSize * (1 / 2)) 5 ∧
       ry - max (fontSize * (1 / 2)) 5 ≤ ay ∧
       ay ≤ ry + rh + fontSize * (6 / 5) + max (fontSize * (1 / 2)) 5) :=
  isTextPos_some_iff ax ay fontSize rx ry rw rh

/-- C9: the containment test is monotone in the font size — an anchor
reported inside at font size `f` is still inside at any `g ≥ f`. -/
theorem claim9_containment_monotone (ax ay rx ry rw rh f g : ℚ)
    (hfg : f ≤ g)
    (hin : isTextPositionInRedactedArea (jnum ax) (jnum ay) (jnum f)
      (jnum rx) (jnum ry) (jnum rw) (jnum rh) = true) :
    isTextPositionInRedactedArea (jnum ax) (jnum ay) (jnum g)
      (jnum rx) (jnum ry) (jnum rw) (jnum rh) = true := by
  rw [isTextPos_some_iff] at hin ⊢
  have hpad : max (f * (1 / 2)) 5 ≤ max (g * (1 / 2)) 5 :=
    max_le_max (by linarith) le_rfl
  have hband : f * (6 / 5) ≤ g * (6 / 5) := by linarith
  obtain ⟨h1, h2, h3, h4⟩ := hin
  exact ⟨by linarith, by linarith, by linarith, by linarith⟩

/-- Concrete instance of `claim9_containment_monotone`: anchor (50, 50),
box (45, 45, 10, 10), font sizes 12 and 20. -/
theorem claim9_containment_monotone_witness :
    (12 : ℚ) ≤ 20 ∧
    isTextPositionInRedactedArea (jnum 50) (jnum 50) (jnum 12)
      (jnum 45) (jnum 45) (jnum 10) (jnum 10) = true ∧
    isTextPositionInRedactedArea (jnum 50) (jnum 50) (jnum 20)
      (jnum 45) (jnum 45) (jnum 10) (jnum 10) = true :=
  ⟨by norm_num, by decide,
   claim9_containment_monotone 50 50 45 45 10 10 12 20 (by norm_num) (by decide)⟩

/-- C1 counterexample: in `removeTextContentInArea` a `BT` line does
not open a text object — the `!textMode` branch emits it and `continue`s
first, so after processing `BT` the machine is still out of text mode
with an empty pending buffer; consequently a stream whose only text
object sits squarely inside the target box (anchor (50,50), box
(45,45,10,10), the default font size 12 making the containment test
true) comes back byte-identical with removed count 0 instead of being
replaced by a marker with count 1. -/
theorem claim1_counterexample :
    (step1 45 45 10 10 initState1 "BT".data).textMode = false ∧
    (step1 45 45 10 10 initState1 "BT".data).textObjectLines = [] ∧
    isTextPositionInRedactedArea (jnum 50) (jnum 50) (jnum 12)
      (jnum 45) (jnum 45) (jnum 10) (jnum 10) = true ∧
    removeTextContentInArea "BT\n1 0 0 1 50 50 Tm\n(x) Tj\nET".data 45 45 10 10 =
      ("BT\n1 0 0 1 50 50 Tm\n(x) Tj\nET".data, 0) := by
  decide

/-- C1 amended: the described `BT`/`ET` behaviour is that of the live
redactor `removeTextInArea`: a line containing `BT` opens a text object
(pending buffer reset to just that line, skip flag cleared), and a
non-`BT` line containing `ET` closes it — emitting the buffered lines
followed by that line verbatim when the skip flag is false, and a single
marker comment line when it is true.  No removed-object counter exists
there; the counter lives in `removeTextContentInArea`, whose `BT`/`ET`
handling is unreachable, so that counter is 0 for every stream. -/
theorem claim1_amended (x y w h : ℚ) (st : RState2) (l content : List Char) :
    (includesList btStr (jsTrim l) = true →
      step2 x y w h st l =
        { st with textMode := true, pendingTextObject := [jsTrim l],
                  skipCurrentTextObject := false }) ∧
    (includesList btStr (jsTrim l) = false →
     includesList etStr (jsTrim l) = true →
     st.skipCurrentTextObject = false →
      step2 x y w h st l =
        { st with textMode := false,
                  modifiedLines := st.modifiedLines ++ st.pendingTextObject ++ [jsTrim l],
                  pendingTextObject := [], skipCurrentTextObject := false }) ∧
    (includesList btStr (jsTrim l) = false →
     includesList etStr (jsTrim l) = true →
     st.skipCurrentTextObject = true →
      step2 x y w h st l =
        { st with textMode := false,
                  modifiedLines := st.modifiedLines ++ [marker2],
                  pendingTextObject := [], skipCurrentTextObject := false }) ∧
    (removeTextContentInArea content x y w h).2 = 0 := by
  refine ⟨?_, ?_, ?_, ?_⟩
  · intro h1
    simp [step2, h1]
  · intro h1 h2 h3
    simp [step2, h1, h2, h3]
  · intro h1 h2 h3
    simp [step2, h1, h2, h3]
  · rw [removeTextContentInArea_eq]

/-- Concrete state with a pending, skip-flagged text object, used to
instantiate the `ET` clause of `claim1_amended`. -/
def skipDemoState : RState2 :=
  { initState2 with textMode := true, pendingTextObject := ["BT".data],
                    skipCurrentTextObject := true }

/-- Concrete instances of `claim1_amended`: a `BT` line opens, an `ET`
line under the skip flag emits only the marker, and the enhanced
variant's counter is 0. -/
theorem claim1_amended_witness :
    step2 0 0 1 1 initState2 "BT".data =
      { initState2 with textMode := true, pendingTextObject := ["BT".data],
                        skipCurrentTextObject := false } ∧
    step2 0 0 1 1 skipDemoState "ET".data =
      { skipDemoState with textMode := false, modifiedLines := [marker2],
                           pendingTextObject := [], skipCurrentTextObject := false } ∧
    (removeTextContentInArea "BT\nET".data 0 0 1 1).2 = 0 :=
  ⟨(claim1_amended 0 0 1 1 initState2 "BT".data [] ).1 (by decide),
   (claim1_amended 0 0 1 1 skipDemoState "ET".data []).2.2.1
     (by decide) (by decide) rfl,
   (claim1_amended 0 0 1 1 initState2 [] "BT\nET".data).2.2.2⟩

/-- C3: for every redaction whose page index resolves to a page, the
call succeeds and appends exactly two draw operations to that page —
an opacity-1 white fill of the mapped box followed by an opacity-1 black
fill of the same box — regardless of what the stream rewriting did. -/
theorem claim3_overlay_painter (doc : PDFDoc) (r : Redaction) (page : Page)
    (h : doc.pages[r.pageIndex]? = some page) :
    ∃ finalStreams n,
      applyEnhancedTextRedaction doc r = Except.ok
        (PDFDoc.mk (doc.pages.set r.pageIndex
          { page with
              streams := finalStreams,
              drawOps := page.drawOps ++
                [DrawOp.mk (mapRect r page.width page.height).x
                   (mapRect r page.width page.height).y
                   (mapRect r page.width page.height).width
                   (mapRect r page.width page.height).height FillColor.white 1,
                 DrawOp.mk (mapRect r page.width page.height).x
                   (mapRect r page.width page.height).y
                   (mapRect r page.width page.height).width
                   (mapRect r page.width page.height).height FillColor.black 1] }),
          n) := by
  refine ⟨(removeTextFromContentStreams page.streams
      (mapRect r page.width page.height).x (mapRect r page.width page.height).y
      (mapRect r page.width page.height).width
      (mapRect r page.width page.height).height).1,
    (removeTextFromContentStreams page.streams
      (mapRect r page.width page.height).x (mapRect r page.width page.height).y
      (mapRect r page.width page.height).width
      (mapRect r page.width page.height).height).2, ?_⟩
  simp [applyEnhancedTextRedaction, h]

/-- A one-page sample document for the C3 witness. -/
def c3Page : Page := ⟨600, 800, [⟨true, 3, "BT\nET".data⟩], []⟩

/-- The sample document wrapping `c3Page`. -/
def c3Doc : PDFDoc := ⟨[c3Page]⟩

/-- A redaction on the valid page 0 of `c3Doc`. -/
def c3Rect : Redaction := ⟨0, 100, 50, 80, 20, 600, 800⟩

/-- Concrete instance of `claim3_overlay_painter` on `c3Doc`. -/
theorem claim3_overlay_painter_witness :
    c3Doc.pages[c3Rect.pageIndex]? = some c3Page ∧
    (∃ finalStreams n,
      applyEnhancedTextRedaction c3Doc c3Rect = Except.ok
        (PDFDoc.mk (c3Doc.pages.set c3Rect.pageIndex
          { c3Page with
              streams := finalStreams,
              drawOps := c3Page.drawOps ++
                [DrawOp.mk (mapRect c3Rect c3Page.width c3Page.height).x
                   (mapRect c3Rect c3Page.width c3Page.height).y
                   (mapRect c3Rect c3Page.width c3Page.height).width
                   (mapRect c3Rect c3Page.width c3Page.height).height
                   FillColor.white 1,
                 DrawOp.mk (mapRect c3Rect c3Page.width c3Page.height).x
                   (mapRect c3Rect c3Page.width c3Page.height).y
                   (mapRect c3Rect c3Page.width c3Page.height).width
                   (mapRect c3Rect c3Page.width c3Page.height).height
                   FillColor.black 1] }),
          n)) :=
  ⟨rfl, claim3_overlay_painter c3Doc c3Rect c3Page rfl⟩

/-- A one-page sample document for the C6 theorem. -/
def c6Page : Page := ⟨600, 800, [], []⟩

/-- The sample document wrapping `c6Page` (page count 1). -/
def c6Doc : PDFDoc := ⟨[c6Page]⟩

/-- A redaction whose `pageIndex` (1) is ≥ the page count (1). -/
def c6BadRect : Redaction := ⟨1, 10, 10, 20, 20, 600, 800⟩

/-- A redaction on the valid page 0. -/
def c6GoodRect : Redaction := ⟨0, 10, 10, 20, 20, 600, 800⟩

/-- C6 evaluated at the failing input: with an out-of-range page index,
`getPage` throws, the `catch` block's fallback calls `getPage` again and
rethrows, and the `/api/submit-redactions` loop — whose single `try`
wraps all rectangles — aborts with the error, so the valid rectangle
after it is never processed (on its own it would have succeeded). -/
theorem claim6_invalid_page_aborts :
    submitRedactions c6Doc [c6BadRect, c6GoodRect] = Except.error () ∧
    applyEnhancedTextRedaction c6Doc c6BadRect = Except.error () ∧
    (∃ d n, submitRedactions c6Doc [c6GoodRect] = Except.ok (d, n)) :=
  ⟨rfl, rfl, ⟨_, _, rfl⟩⟩

/-- A stream whose `Tm` line carries a leading blank, for the C7
counterexample. -/
def c7Content : List Char := "BT\n 1 0 0 1 5 5 Tm\nET".data

/-- The stream object wrapping `c7Content`. -/
def c7Stream : StreamObj := ⟨true, c7Content.length, c7Content⟩

/-- C7 counterexample: with a far-away rectangle (box (1000,1000,1,1))
whose padded box contains no anchor of the stream — the only anchor is
(5,5), rejected by the containment test — the rewrite still changes the
text object's tokens: the `Tm` line loses its leading blank to
`trim()`, the output differs from the input, and the stream rewriter
therefore rewrites the stream instead of short-circuiting. -/
theorem claim7_counterexample :
    isTextPositionInRedactedArea (jnum 5) (jnum 5) (jnum 12)
      (jnum 1000) (jnum 1000) (jnum 1) (jnum 1) = false ∧
    (removeTextContentInArea c7Content 1000 1000 1 1).1 ≠ c7Content ∧
    (processAndModifyContentStream c7Stream 1000 1000 1 1).1.content ≠
      c7Content := by
  decide

/-- C7 amended: tokens are preserved byte-for-byte only up to the
per-line `trim()`: whenever every line of the stream is already
trim-stable, the rewrite returns the stream byte-identical (whatever the
rectangle is) and the stream rewriter short-circuits, leaving the stream
object's content and declared `Length` untouched. -/
theorem claim7_amended (content : List Char) (x y w h : ℚ) (s : StreamObj)
    (hs : s.content = content)
    (htrim : ∀ l ∈ content.splitOn '\n', jsTrim l = l) :
    removeTextContentInArea content x y w h = (content, 0) ∧
    processAndModifyContentStream s x y w h = (s, 0) := by
  have hmap : (content.splitOn '\n').map jsTrim = content.splitOn '\n' := by
    calc (content.splitOn '\n').map jsTrim
        = (content.splitOn '\n').map id := List.map_congr_left htrim
      _ = content.splitOn '\n' := List.map_id _
  have hout : removeTextContentInArea content x y w h = (content, 0) := by
    rw [removeTextContentInArea_eq, hmap, List.intercalate_splitOn]
  refine ⟨hout, ?_⟩
  unfold processAndModifyContentStream
  by_cases hL : s.hasLength = false
  · simp [hL]
  · simp [hL, hs, hout]

/-- A stream whose lines are all trim-stable, for the C7 witness. -/
def c7TrimContent : List Char := "q\nBT\n(x) Tj\nET".data

/-- The stream object wrapping `c7TrimContent`. -/
def c7TrimStream : StreamObj := ⟨true, c7TrimContent.length, c7TrimContent⟩

/-- Concrete instance of `claim7_amended` on a trim-stable stream. -/
theorem claim7_amended_witness :
    c7TrimStream.content = c7TrimContent ∧
    (∀ l ∈ c7TrimContent.splitOn '\n', jsTrim l = l) ∧
    removeTextContentInArea c7TrimContent 0 0 5 5 = (c7TrimContent, 0) ∧
    processAndModifyContentStream c7TrimStream 0 0 5 5 = (c7TrimStream, 0) :=
  ⟨rfl, by decide,
   (claim7_amended c7TrimContent 0 0 5 5 c7TrimStream rfl (by decide)).1,
   (claim7_amended c7TrimContent 0 0 5 5 c7TrimStream rfl (by decide)).2⟩

/-- The `cm` composition formula exactly as the claim and specification
word it:
`[M.a*N.a + M.c*N.b, M.b*N.a + M.d*N.b, M.a*N.c + M.c*N.d,
  M.b*N.c + M.d*N.d, M.a*N.e + M.c*N.f + M.e, M.b*N.e + M.d*N.f + M.f]`,
stated separately from `multiplyMatrices` so the code can be compared
against it. -/
def specCmCompose (M N : Mat) : Mat :=
  ⟨jadd (jmul M.a N.a) (jmul M.c N.b),
   jadd (jmul M.b N.a) (jmul M.d N.b),
   jadd (jmul M.a N.c) (jmul M.c N.d),
   jadd (jmul M.b N.c) (jmul M.d N.d),
   jadd (jadd (jmul M.a N.e) (jmul M.c N.f)) M.e,
   jadd (jadd (jmul M.b N.e) (jmul M.d N.f)) M.f⟩

/-- C8: outside a text object, a line whose `cm` regex matches operand
matrix `N` updates the tracked matrix `M` to exactly the claimed
pre-multiplication formula (for every pair of matrices, NaN entries
included) and is emitted; every other outside-text line passes through
with the whole state other than the output unchanged. -/
theorem claim8_cm_premultiply (x y w h : ℚ) (st : RState1) (l : List Char)
    (hst : st.textMode = false) :
    (∀ M N, multiplyMatrices M N = specCmCompose M N) ∧
    (∀ n, includesList cmStr (jsTrim l) = true → cmMatch (jsTrim l) = some n →
      step1 x y w h st l =
        { st with currentMatrix := specCmCompose st.currentMatrix n,
                  modifiedLines := st.modifiedLines ++ [jsTrim l] }) ∧
    (includesList cmStr (jsTrim l) = false ∨ cmMatch (jsTrim l) = none →
      step1 x y w h st l =
        { st with modifiedLines := st.modifiedLines ++ [jsTrim l] }) := by
  refine ⟨fun M N => rfl, ?_, ?_⟩
  · intro n h1 h2
    have hspec : specCmCompose st.currentMatrix n =
        multiplyMatrices st.currentMatrix n := rfl
    simp [step1, hst, h1, h2, hspec]
  · intro hor
    rcases hor with h1 | h2
    · simp [step1, hst, h1]
    · by_cases h1 : includesList cmStr (jsTrim l) = true
      · simp [step1, hst, h1, h2]
      · simp [step1, hst, h1]

/-- The concrete operand matrix of the line `2 0 0 2 10 20 cm`. -/
def c8OperandMat : Mat := ⟨jnum 2, jnum 0, jnum 0, jnum 2, jnum 10, jnum 20⟩

/-- Concrete instance of `claim8_cm_premultiply`: a `cm` line composed
into the initial identity matrix, and a passthrough line. -/
theorem claim8_cm_premultiply_witness :
    initState1.textMode = false ∧
    includesList cmStr (jsTrim "2 0 0 2 10 20 cm".data) = true ∧
    cmMatch (jsTrim "2 0 0 2 10 20 cm".data) = some c8OperandMat ∧
    step1 0 0 1 1 initState1 "2 0 0 2 10 20 cm".data =
      { initState1 with
          currentMatrix := specCmCompose initState1.currentMatrix c8OperandMat,
          modifiedLines := [jsTrim "2 0 0 2 10 20 cm".data] } ∧
    step1 0 0 1 1 initState1 "0.4 w".data =
      { initState1 with modifiedLines := [jsTrim "0.4 w".data] } :=
  ⟨rfl, by decide, by decide,
   (claim8_cm_premultiply 0 0 1 1 initState1 "2 0 0 2 10 20 cm".data rfl).2.1
     c8OperandMat (by decide) (by decide),
   (claim8_cm_premultiply 0 0 1 1 initState1 "0.4 w".data rfl).2.2
     (Or.inl (by decide))⟩

/-- A state inside a text object whose current anchor (50,50) sits in
the padded box of rectangle (45,45,10,10). -/
def c10State : RState2 :=
  { initState2 with textMode := true,
                    currentMatrix := { idMat with e := jnum 50, f := jnum 50 } }

/-- A line whose shown-string payload contains an apostrophe but which
is a `Tm` operation: `(don't) 1 0 0 1 500 500 Tm`. -/
def c10TmLine : List Char :=
  "(don".data ++ [Char.ofNat 39] ++ "t) 1 0 0 1 500 500 Tm".data

/-- C10 counterexample: a line containing an apostrophe is not always
treated as a text-showing operation — the `Tm` branch of the else-chain
wins.  With the current anchor (50,50) inside the padded rectangle, a
show treatment would have set the skip flag; instead the line replaces
the matrix (moving the anchor to (500,500)) and the skip flag stays
false. -/
theorem claim10_counterexample :
    includesList quoteStr (jsTrim c10TmLine) = true ∧
    c10State.textMode = true ∧
    isPositionInRedactedArea c10State.currentMatrix.e c10State.currentMatrix.f
      (jnum 45) (jnum 45) (jnum 10) (jnum 10) = true ∧
    (step2 45 45 10 10 c10State c10TmLine).skipCurrentTextObject = false ∧
    (step2 45 45 10 10 c10State c10TmLine).currentMatrix ≠
      c10State.currentMatrix := by
  decide

/-- C10 amended: inside a text object, a line containing `'` or `"` (or
` Tj` / ` TJ`) anywhere is treated as a text-showing operation — the
containment test runs at the current anchor and can flag the whole
object — provided the line contains none of `BT`, `ET`, ` Tm`, ` Td`,
` TD`, which the else-chain checks first; and a line containing `BT`
anywhere (operator or not) is treated as a text-object opener.  So lines
that are not the corresponding operators still change the redactor's
state. -/
theorem claim10_amended (x y w h : ℚ) (st : RState2) (l : List Char) :
    (st.textMode = true →
     includesList btStr (jsTrim l) = false →
     includesList etStr (jsTrim l) = false →
     includesList tmStr (jsTrim l) = false →
     includesList tdStr (jsTrim l) = false →
     includesList tdUStr (jsTrim l) = false →
     (includesList tjStr (jsTrim l) || includesList tjUStr (jsTrim l) ||
      includesList quoteStr (jsTrim l) || includesList dquoteStr (jsTrim l)) = true →
      step2 x y w h st l =
        { st with
            pendingTextObject := st.pendingTextObject ++ [jsTrim l],
            skipCurrentTextObject :=
              (st.skipCurrentTextObject ||
               isPositionInRedactedArea st.currentMatrix.e st.currentMatrix.f
                 (jnum x) (jnum y) (jnum w) (jnum h)) }) ∧
    (includesList btStr (jsTrim l) = true →
      step2 x y w h st l =
        { st with textMode := true, pendingTextObject := [jsTrim l],
                  skipCurrentTextObject := false }) := by
  constructor
  · intro htm hbt het htmm htd htdU hshow
    by_cases hin : isPositionInRedactedArea st.currentMatrix.e
        st.currentMatrix.f (jnum x) (jnum y) (jnum w) (jnum h) = true
    · simp [step2, htm, hbt, het, htmm, htd, htdU, hshow, hin]
    · simp only [Bool.not_eq_true] at hin
      simp [step2, htm, hbt, het, htmm, htd, htdU, hshow, hin]
  · intro hbt
    simp [step2, hbt]

/-- A pure payload line containing an apostrophe and no operator:
`(don't)`. -/
def c10PayloadLine : List Char :=
  "(don".data ++ [Char.ofNat 39] ++ "t)".data

/-- Concrete instances of `claim10_amended`: the apostrophe-bearing
payload line `(don't)` (no operator at all) flags the object for
removal, and the non-operator line `xBTy` opens a text object. -/
theorem claim10_amended_witness :
    (step2 45 45 10 10 c10State c10PayloadLine).skipCurrentTextObject = true ∧
    step2 0 0 1 1 initState2 "xBTy".data =
      { initState2 with textMode := true, pendingTextObject := ["xBTy".data],
                        skipCurrentTextObject := false } := by
  constructor
  · have h := (claim10_amended 45 45 10 10 c10State c10PayloadLine).1
      rfl (by decide) (by decide) (by decide) (by decide) (by decide) (by decide)
    rw [h]
    decide
  · exact (claim10_amended 0 0 1 1 initState2 "xBTy".data).2 (by decide)

end PdfRedact
